import Mathlib

/-!
Verification of the Wing compiler core (`packages/@winglang/wingc`).

The definitions below are a shallow embedding of the Rust sources
`src/ast.rs` and `src/lib.rs`: enums become inductives, structs become
structures, `Vec`/`IndexMap` become `List` (IndexMap preserves insertion
order, so a list of pairs is the faithful order-aware model), `usize`
counters become `Nat` with explicit state passing, and panics become
`Option`/`Except` failure values.  Types that live outside the two source
files (notably `WingSpan` from `diagnostic.rs` and the file-system /
driver collaborators) are modelled from the specification, as marked in
their doc comments.
-/

set_option linter.unusedVariables false

namespace Wing

/-- `Phase` from `ast.rs`: the preflight/inflight/independent distinction. -/
inductive Phase where
  | Inflight
  | Preflight
  | Independent
deriving DecidableEq, Repr

/-- `Phase::can_call_to` from `ast.rs`:
returns true if the current phase can call into the given phase.
Independent functions can be called from any phase; preflight can call
into preflight; inflight can call into inflight. -/
def Phase.can_call_to (self other : Phase) : Bool :=
  match other with
  | .Independent => true
  | .Inflight | .Preflight => other == self

/-- Modelled from the spec: `WingSpan` lives in `diagnostic.rs`, which is not
part of the two provided source files.  Per the spec a span is a half-open
source region `(file, start_line, start_col, start_offset, end_line,
end_col, end_offset)`, comparable first by file, then by start, then by
end. -/
structure WingSpan where
  file : String
  start_line : Nat
  start_col : Nat
  start_offset : Nat
  end_line : Nat
  end_col : Nat
  end_offset : Nat
deriving DecidableEq, Repr

/-- `Default::default()` for spans: the all-zero span with an empty file. -/
def WingSpan.default : WingSpan :=
  { file := "", start_line := 0, start_col := 0, start_offset := 0,
    end_line := 0, end_col := 0, end_offset := 0 }

instance : Inhabited WingSpan := ⟨WingSpan.default⟩

/-- Modelled from the spec: span comparison, first by file, then by start
position, then by end position. -/
def WingSpan.cmp (a b : WingSpan) : Ordering :=
  (compare a.file b.file).then
    ((compare a.start_line b.start_line).then
      ((compare a.start_col b.start_col).then
        ((compare a.end_line b.end_line).then
          (compare a.end_col b.end_col))))

/-- `Symbol` from `ast.rs`: a `(name, span)` pair. -/
structure Symbol where
  name : String
  span : WingSpan
deriving DecidableEq, Repr

/-- `Symbol::global` from `ast.rs`: a symbol with a default span. -/
def Symbol.global (name : String) : Symbol :=
  { name := name, span := WingSpan.default }

/-- The `PartialEq` impl for `Symbol` in `ast.rs`: equality is by name only. -/
def Symbol.beq (a b : Symbol) : Bool :=
  a.name == b.name

/-- `Symbol::same` from `ast.rs`: true when the symbols refer to the same
name AND location in the source code. -/
def Symbol.same (a b : Symbol) : Bool :=
  a.name == b.name && a.span == b.span

/-- The `Hash` impl for `Symbol` in `ast.rs`: only the name is fed to the
hasher.  The hasher itself is abstracted as a function from strings. -/
def Symbol.hashVal (h : String → Nat) (s : Symbol) : Nat :=
  h s.name

/-- The `Ord` impl for `Symbol` in `ast.rs`: compare by name, then by span. -/
def Symbol.cmp (a b : Symbol) : Ordering :=
  (compare a.name b.name).then (WingSpan.cmp a.span b.span)

/-! The builtin bringable module names from `lib.rs`. -/

def WINGSDK_CLOUD_MODULE : String := "cloud"
def WINGSDK_UTIL_MODULE : String := "util"
def WINGSDK_HTTP_MODULE : String := "http"
def WINGSDK_MATH_MODULE : String := "math"
def WINGSDK_AWS_MODULE : String := "aws"
def WINGSDK_EXPECT_MODULE : String := "expect"
def WINGSDK_FS_MODULE : String := "fs"
def WINGSDK_SIM_MODULE : String := "sim"
def WINGSDK_UI_MODULE : String := "ui"

/-- `WINGSDK_BRINGABLE_MODULES` from `lib.rs`: the fixed array of nine
builtin module names accepted by a `bring` statement. -/
def WINGSDK_BRINGABLE_MODULES : List String :=
  [WINGSDK_CLOUD_MODULE, WINGSDK_UTIL_MODULE, WINGSDK_HTTP_MODULE,
   WINGSDK_MATH_MODULE, WINGSDK_AWS_MODULE, WINGSDK_EXPECT_MODULE,
   WINGSDK_FS_MODULE, WINGSDK_SIM_MODULE, WINGSDK_UI_MODULE]

/-- `AccessModifier` from `ast.rs`. -/
inductive AccessModifier where
  | Private
  | Public
  | Protected
  | Internal
deriving DecidableEq, Repr

/-- `UserDefinedType` from `ast.rs`: a root symbol plus member symbols. -/
structure UserDefinedType where
  root : Symbol
  fields : List Symbol
  span : WingSpan
deriving DecidableEq, Repr

/-- `AssignmentKind` from `ast.rs`. -/
inductive AssignmentKind where
  | Assign
  | AssignIncr
  | AssignDecr
deriving DecidableEq, Repr

/-- `UnaryOperator` from `ast.rs`. -/
inductive UnaryOperator where
  | Minus
  | Not
  | OptionalUnwrap
deriving DecidableEq, Repr

/-- `BinaryOperator` from `ast.rs`. -/
inductive BinaryOperator where
  | AddOrConcat
  | Sub
  | Mul
  | Div
  | FloorDiv
  | Mod
  | Power
  | Greater
  | GreaterOrEqual
  | Less
  | LessOrEqual
  | Equal
  | NotEqual
  | LogicalAnd
  | LogicalOr
  | UnwrapOr
deriving DecidableEq, Repr

/-- `IntrinsicKind` from `ast.rs`. -/
inductive IntrinsicKind where
  | Unknown
  | Dirname
  | Filename
  | App
deriving DecidableEq, Repr

/-- `BringSource` from `ast.rs`; `Utf8PathBuf` paths are modelled as
strings. -/
inductive BringSource where
  | BuiltinModule (name : Symbol)
  | TrustedModule (name : Symbol) (path : String)
  | WingLibrary (name : Symbol) (path : String)
  | JsiiModule (name : Symbol)
  | WingFile (path : String)
  | Directory (path : String)

/-! The `TypeAnnotation`/`TypeAnnotationKind`/`FunctionSignature`/
`FunctionParameter` family from `ast.rs`.  These four types are mutually
recursive (a function type carries a signature whose parameters and return
type are annotations), so they are declared as single-constructor
inductives in one mutual block; field accessors are defined right after. -/

mutual

inductive TypeAnnotation where
  | mk (kind : TypeAnnotationKind) (span : WingSpan)

inductive TypeAnnotationKind where
  | Inferred
  | Number
  | String
  | Bool
  | Duration
  | Datetime
  | Regex
  | Void
  | Json
  | MutJson
  | Optional (t : TypeAnnotation)
  | Array (t : TypeAnnotation)
  | MutArray (t : TypeAnnotation)
  | Map (t : TypeAnnotation)
  | MutMap (t : TypeAnnotation)
  | Set (t : TypeAnnotation)
  | MutSet (t : TypeAnnotation)
  | Function (sig : FunctionSignature)
  | UserDefined (t : UserDefinedType)

inductive FunctionSignature where
  | mk (parameters : List FunctionParameter) (return_type : TypeAnnotation)
      (phase : Phase)

inductive FunctionParameter where
  | mk (name : Symbol) ( type_annotation : TypeAnnotation)
      (reassignable : Bool) (variadic : Bool)

end

/-- Accessor for the `kind` field of `TypeAnnotation`. -/
def TypeAnnotation.kind : TypeAnnotation → TypeAnnotationKind
  | .mk k _ => k

/-- Accessor for the `span` field of `TypeAnnotation`. -/
def TypeAnnotation.span : TypeAnnotation → WingSpan
  | .mk _ s => s

/-- Accessor for the `parameters` field of `FunctionSignature`. -/
def FunctionSignature.parameters : FunctionSignature → List FunctionParameter
  | .mk ps _ _ => ps

/-- Accessor for the `return_type` field of `FunctionSignature`. -/
def FunctionSignature.return_type : FunctionSignature → TypeAnnotation
  | .mk _ r _ => r

/-- Accessor for the `phase` field of `FunctionSignature`. -/
def FunctionSignature.phase : FunctionSignature → Phase
  | .mk _ _ p => p

/-- `ClassField` from `ast.rs`. -/
structure ClassField where
  name : Symbol
  member_type : TypeAnnotation
  reassignable : Bool
  phase : Phase
  is_static : Bool
  access : AccessModifier
  doc : Option String

/-- `StructField` from `ast.rs`. -/
structure StructField where
  name : Symbol
  member_type : TypeAnnotation
  doc : Option String

/-- `Interface` from `ast.rs`. -/
structure Interface where
  name : Symbol
  methods : List (Symbol × FunctionSignature × Option String)
  extends_ : List UserDefinedType
  access : AccessModifier
  phase : Phase

/-- `Struct` from `ast.rs`. -/
structure Struct where
  name : Symbol
  extends_ : List UserDefinedType
  fields : List StructField
  access : AccessModifier

/-- `Enum` from `ast.rs`; the `IndexMap` of values is modelled as an
insertion-ordered association list. -/
structure Enum where
  name : Symbol
  values : List (Symbol × Option String)
  access : AccessModifier

/-! The expression/statement/class family from `ast.rs`.  `Expr`, `Scope`,
`Stmt`, `Class`, references, argument lists and function definitions are
mutually recursive in the source, so the whole family is declared as one
mutual block; Rust structs become single-constructor inductives whose
field accessors are defined right after the block.  `f64` literals are
modelled as `Float`, `Vec` and `IndexMap` as (insertion-ordered) lists. -/

set_option maxHeartbeats 3200000 in
mutual

inductive Literal where
  | NonInterpolatedString (s : String)
  | String (s : String)
  | InterpolatedString (s : InterpolatedString)
  | Number (n : Float)
  | Boolean (b : Bool)
  | Nil

inductive InterpolatedString where
  | mk (parts : List InterpolatedStringPart)

inductive InterpolatedStringPart where
  | Static (s : String)
  | Expr (e : Expr)

inductive Expr where
  | mk (id : Nat) (kind : ExprKind) (span : WingSpan)

inductive ExprKind where
  | New (n : New)
  | Literal (l : Literal)
  | Range (start : Expr) (inclusive : Option Bool) (end_ : Expr)
  | Reference (r : Reference)
  | Intrinsic (i : Intrinsic)
  | Call (callee : CalleeKind) (arg_list : ArgList)
  | Unary (op : UnaryOperator) (exp : Expr)
  | Binary (op : BinaryOperator) (left : Expr) (right : Expr)
  | ArrayLiteral (type_ : Option TypeAnnotation) (items : List Expr)
  | StructLiteral (type_ : TypeAnnotation) (fields : List (Symbol × Expr))
  | JsonMapLiteral (fields : List (Symbol × Expr))
  | MapLiteral (type_ : Option TypeAnnotation) (fields : List (Expr × Expr))
  | SetLiteral (type_ : Option TypeAnnotation) (items : List Expr)
  | JsonLiteral (is_mut : Bool) (element : Expr)
  | FunctionClosure (f : FunctionDefinition)

inductive New where
  | mk (class_ : UserDefinedType) (obj_id : Option Expr)
      (obj_scope : Option Expr) (arg_list : ArgList)

inductive CalleeKind where
  | Expr (e : Expr)
  | SuperCall (method : Symbol)

inductive ArgList where
  | mk (pos_args : List Expr) (named_args : List (Symbol × Expr))
      (id : Nat) (span : WingSpan)

inductive Intrinsic where
  | mk (name : Symbol) (arg_list : Option ArgList) (kind : IntrinsicKind)

inductive Reference where
  | Identifier (s : Symbol)
  | InstanceMember (object : Expr) (property : Symbol) (optional_accessor : Bool)
  | ElementAccess (object : Expr) (index : Expr)
  | TypeMember (type_name : UserDefinedType) (property : Symbol)

inductive Scope where
  | mk (id : Nat) (statements : List Stmt) (span : WingSpan)

inductive Stmt where
  | mk (kind : StmtKind) (span : WingSpan) (idx : Nat) (doc : Option String)

inductive StmtKind where
  | Bring (source : BringSource) (identifier : Option Symbol)
  | SuperConstructor (arg_list : ArgList)
  | Let (reassignable : Bool) (var_name : Symbol) (initial_value : Expr)
      (type_ : Option TypeAnnotation)
  | ForLoop (iterator : Symbol) (iterable : Expr) (statements : Scope)
  | While (condition : Expr) (statements : Scope)
  | IfLet (i : IfLet)
  | If (condition : Expr) (statements : Scope)
      (else_if_statements : List ElseIfBlock) (else_statements : Option Scope)
  | Break
  | Continue
  | Return (e : Option Expr)
  | Throw (e : Expr)
  | Expression (e : Expr)
  | Assignment (kind : AssignmentKind) (variable_ : Reference) (value : Expr)
  | Scope (s : Scope)
  | Class (c : Class)
  | Interface (i : Interface)
  | Struct (s : Struct)
  | Enum (e : Enum)
  | TryCatch (try_statements : Scope) (catch_block : Option CatchBlock)
      (finally_statements : Option Scope)
  | ExplicitLift (e : ExplicitLift)

inductive IfLet where
  | mk (reassignable : Bool) (var_name : Symbol) (value : Expr)
      (statements : Scope) (else_if_statements : List ElseIfs)
      (else_statements : Option Scope)

inductive ElseIfs where
  | ElseIfBlock (b : ElseIfBlock)
  | ElseIfLetBlock (b : ElseIfLetBlock)

inductive ElseIfBlock where
  | mk (condition : Expr) (statements : Scope)

inductive ElseIfLetBlock where
  | mk (reassignable : Bool) (var_name : Symbol) (value : Expr) (statements : Scope)

inductive CatchBlock where
  | mk (statements : Scope) (exception_var : Option Symbol)

inductive ExplicitLift where
  | mk (qualifications : List LiftQualification) (statements : Scope)

inductive LiftQualification where
  | mk (obj : Expr) (ops : List Symbol)

inductive FunctionBody where
  | Statements (s : Scope)
  | External (path : String)

inductive FunctionDefinition where
  | mk (name : Option Symbol) (body : FunctionBody)
      (signature : FunctionSignature) (is_static : Bool)
      (access : AccessModifier) (doc : Option String) (span : WingSpan)

inductive Class where
  | mk (name : Symbol) (span : WingSpan) (fields : List ClassField)
      (methods : List (Symbol × FunctionDefinition))
      (initializer : FunctionDefinition)
      (inflight_initializer : FunctionDefinition)
      (parent : Option UserDefinedType) (implements : List UserDefinedType)
      (phase : Phase) (access : AccessModifier) (auto_id : Bool)

end

/-- Accessor for the `id` field of `Expr`. -/
def Expr.id : Expr → Nat
  | .mk i _ _ => i

/-- Accessor for the `kind` field of `Expr`. -/
def Expr.kind : Expr → ExprKind
  | .mk _ k _ => k

/-- Accessor for the `span` field of `Expr`. -/
def Expr.span : Expr → WingSpan
  | .mk _ _ s => s

/-- Accessor for the `signature` field of `FunctionDefinition`. -/
def FunctionDefinition.signature : FunctionDefinition → FunctionSignature
  | .mk _ _ sig _ _ _ _ => sig

/-- Accessor for the `name` field of `FunctionDefinition`. -/
def FunctionDefinition.name : FunctionDefinition → Option Symbol
  | .mk n _ _ _ _ _ _ => n

/-- Accessor for the `methods` field of `Class`. -/
def Class.methods : Class → List (Symbol × FunctionDefinition)
  | .mk _ _ _ ms _ _ _ _ _ _ _ => ms

/-- Accessor for the `initializer` field of `Class`. -/
def Class.initializer : Class → FunctionDefinition
  | .mk _ _ _ _ init _ _ _ _ _ _ => init

/-- Accessor for the `inflight_initializer` field of `Class`. -/
def Class.inflight_initializer : Class → FunctionDefinition
  | .mk _ _ _ _ _ iinit _ _ _ _ _ => iinit

/-- Accessor for the `fields` field of `Class`. -/
def Class.fields : Class → List ClassField
  | .mk _ _ fs _ _ _ _ _ _ _ _ => fs

/-- `Class::all_methods` from `ast.rs`: all methods in declaration order,
followed by the initializer and the inflight initializer when
`include_initializers` is set. -/
def Class.all_methods (self : Class) (include_initializers : Bool) :
    List FunctionDefinition :=
  self.methods.map Prod.snd ++
    (if include_initializers then [self.initializer, self.inflight_initializer]
     else [])

/-- `Class::inflight_methods` from `ast.rs`: the methods whose signature
phase is `Inflight`. -/
def Class.inflight_methods (self : Class) (include_initializers : Bool) :
    List FunctionDefinition :=
  (self.all_methods include_initializers).filter
    (fun m => m.signature.phase == Phase.Inflight)

/-- `Class::preflight_methods` from `ast.rs`: the methods whose signature
phase is not `Inflight`. -/
def Class.preflight_methods (self : Class) (include_initializers : Bool) :
    List FunctionDefinition :=
  (self.all_methods include_initializers).filter
    (fun m => m.signature.phase != Phase.Inflight)

/-- The `Clone` impl for `Reference` in `ast.rs`.  The Rust implementation
panics ("Unable to clone reference to ...") on the `InstanceMember` and
`ElementAccess` variants; a panic is modelled as `none`. -/
def Reference.clone : Reference → Option Reference
  | .Identifier i => some (.Identifier i)
  | .InstanceMember _ _ _ => none
  | .TypeMember type_name property => some (.TypeMember type_name property)
  | .ElementAccess _ _ => none

/-- The modulus of `usize` arithmetic: `wingc` is built for the wasm32
target (see the `wingc_compile` WASM ABI in `lib.rs`), where `usize` is 32
bits, and `AtomicUsize::fetch_add` wraps around on overflow. -/
def USIZE_MOD : Nat := 2 ^ 32

/-- `Expr::new` from `ast.rs`.  The Rust code draws the id from the global
atomic `EXPR_COUNTER` via `fetch_add(1)`, which returns the old counter
value and stores the incremented value, wrapping modulo `2^32` on the
wasm32 target; the counter word is threaded explicitly as state here,
returning the constructed expression together with the updated counter. -/
def Expr.new (kind : ExprKind) (span : WingSpan) (exprCounter : Nat) :
    Expr × Nat :=
  (Expr.mk exprCounter kind span, (exprCounter + 1) % USIZE_MOD)

/-- A sequence of `Expr::new` calls within one process: each call receives
the counter left by the previous one. -/
def exprNewSeq : List (ExprKind × WingSpan) → Nat → List Expr × Nat
  | [], c => ([], c)
  | (k, s) :: rest, c =>
    let (e, c1) := Expr.new k s c
    let (es, c2) := exprNewSeq rest c1
    (e :: es, c2)

/-! Project-root discovery from `lib.rs`.  The file system is a
collaborator of the core; it is abstracted as predicates over absolute
directory paths, a path being modelled as the list of its components (the
filesystem root `/` is `[]`, `parent` is `List.dropLast`). -/

/-- Modelled from the spec at the file-system boundary: what
`find_nearest_wing_project_dir` observes about the file system.
`package_json_has_wing` holds when the `package.json` of the directory reads
and parses as JSON with a top-level "wing" field. -/
structure WingFS where
  is_dir : List String → Bool
  wing_toml_exists : List String → Bool
  package_json_exists : List String → Bool
  package_json_has_wing : List String → Bool

/-- One directory check of the ascent loop in
`find_nearest_wing_project_dir` (`lib.rs`): `wing.toml` is checked first,
then `package.json` with a "wing" field. -/
def dir_matches (fs : WingFS) (d : List String) : Bool :=
  if fs.wing_toml_exists d then true
  else if fs.package_json_exists d && fs.package_json_has_wing d then true
  else false

/-- The ascent loop of `find_nearest_wing_project_dir` (`lib.rs`): check
the current directory (wing.toml first, then package.json with a "wing"
field), stop after the filesystem root, otherwise continue in the parent
directory.  `none` models falling out of the loop without a match. -/
def project_dir_loop (fs : WingFS) (current : List String) :
    Option (List String) :=
  if fs.wing_toml_exists current then some current
  else if fs.package_json_exists current && fs.package_json_has_wing current then
    some current
  else if h : current = [] then none
  else project_dir_loop fs current.dropLast
termination_by current.length
decreasing_by
  simp only [List.length_dropLast]
  have hp : 0 < current.length := List.length_pos.mpr h
  omega

/-- `find_nearest_wing_project_dir` from `lib.rs`: the initial directory
is the source path itself when it is a directory, its parent otherwise;
the loop ascends from there; when no directory up to the root matches, the
initial directory is returned. -/
def find_nearest_wing_project_dir (fs : WingFS) (source_path : List String) :
    List String :=
  let initial_dir :=
    if fs.is_dir source_path then source_path else source_path.dropLast
  match project_dir_loop fs initial_dir with
  | some d => d
  | none => initial_dir

/-- The chain of directories the ascent visits: the directory itself, then
its parents, ending with the filesystem root `[]`. -/
def ancestors (p : List String) : List (List String) :=
  if h : p = [] then [[]]
  else p :: ancestors p.dropLast
termination_by p.length
decreasing_by
  simp only [List.length_dropLast]
  have hp : 0 < p.length := List.length_pos.mpr h
  omega

/-! The `compile` driver from `lib.rs`.  The phases it orchestrates
(parser, closure transformer, type checker, lift visitor, jsifier,
dtsifier) are collaborators whose internals live outside the two source
files; what `compile` itself observes of each phase is whether it reported
any error diagnostic to the global sink (`found_errors()`) and, for the
emitters, whether `emit_files` returned an error.  A compile run is
therefore modelled as `compile` applied to a `CompileWorld` recording
those observations; the control flow of the model mirrors `compile` in
`lib.rs` line by line. -/

/-- Modelled from the spec at the collaborator boundary: the phase
observations of one compile run.  Each `*_errors` flag says whether the
corresponding phase reported at least one error diagnostic; `*_fails`
flags say whether an emitter call returned `Err`. -/
structure CompileWorld where
  /-- The topologically sorted files returned by `parse_wing_project`. -/
  topo_sorted_files : List String
  /-- Error diagnostics reported during the parsing phase. -/
  parse_errors : Bool
  /-- Error diagnostics reported during type checking, type-reference
  normalization, type-check asserts or JSON validation. -/
  type_check_errors : Bool
  /-- Error diagnostics reported during the lifting phase. -/
  lift_errors : Bool
  /-- Error diagnostics reported during struct-schema generation or
  jsification. -/
  jsify_errors : Bool
  /-- Whether `jsifier.output_files.emit_files` returns `Err` when called
  (the `Err` is reported as a diagnostic). -/
  jsify_emit_fails : Bool
  /-- Whether `source_path.is_dir()` holds (gates the dtsification phase). -/
  source_is_dir : Bool
  /-- Error diagnostics reported while dtsifying. -/
  dtsify_errors : Bool
  /-- Whether the `emit_files` call of the dtsifier returns `Err`. -/
  dts_emit_fails : Bool
  /-- Whether the `extern` dtsifier returns `Err` when invoked (the `Err`
  is reported as a diagnostic). -/
  ext_dtsify_fails : Bool
  /-- The imported namespaces collected from the source file envs. -/
  imported_namespaces : List String

/-- The observable outcome of one `compile` run. -/
structure CompileOutcome where
  /-- The files for which the type-checking loop ran `type_check_file`. -/
  type_checked_files : List String
  /-- Whether the jsification output files were flushed to the out dir. -/
  js_emitted : Bool
  /-- Whether the dtsification output files were flushed to the out dir. -/
  dts_emitted : Bool
  /-- `Ok(CompilerOutput)` (carrying `imported_namespaces`) or `Err(())`. -/
  result : Except Unit (List String)

/-- `compile` from `lib.rs`, phase by phase.  The error state `e` is the
monotone value of `found_errors()`: diagnostics are only ever added to the
sink, never removed.  Note that the type-checking loop runs for every
parsed file with no error gate after parsing; the first gate
(`if found_errors() { return Err(()) }`) sits after the lifting phase, the
two `emit_files` calls and the extern dtsifier are each guarded by
`!found_errors()`, and the final gate sits before the `Ok` result. -/
def compile (w : CompileWorld) : CompileOutcome :=
  -- parsing phase: `parse_wing_project` reports diagnostics
  let e := w.parse_errors
  -- desugaring phase: pure folds over the ASTs
  -- type-checking phase: loops over all topologically sorted files
  let type_checked := w.topo_sorted_files
  let e := e || w.type_check_errors
  -- lifting phase
  let e := e || w.lift_errors
  -- "bail out now (before jsification) if there are errors"
  if e then
    { type_checked_files := type_checked, js_emitted := false,
      dts_emitted := false, result := .error () }
  else
    -- struct schema generation and jsification phases
    let e := w.jsify_errors
    let js_emitted := !e
    let e := e || (js_emitted && w.jsify_emit_fails)
    -- dtsification phase, only when the source path is a directory
    let e := e || (w.source_is_dir && w.dtsify_errors)
    let dts_emitted := w.source_is_dir && !e
    let e := e || (dts_emitted && w.dts_emit_fails)
    -- extern dtsification phase, guarded per call by `!found_errors()`
    let e := e || (!e && w.ext_dtsify_fails)
    if e then
      { type_checked_files := type_checked, js_emitted := js_emitted,
        dts_emitted := dts_emitted, result := .error () }
    else
      { type_checked_files := type_checked, js_emitted := js_emitted,
        dts_emitted := dts_emitted, result := .ok w.imported_namespaces }

/-! Concrete instances used to witness the theorems below on closed
inputs. -/

/-- A `void` return-type annotation with a default span. -/
def voidAnnotation : TypeAnnotation := .mk .Void WingSpan.default

/-- An empty scope used as a method body in the examples. -/
def emptyScope : Scope := .mk 0 [] WingSpan.default

/-- An example inflight method named `put`. -/
def exampleInflightMethod : FunctionDefinition :=
  .mk (some (Symbol.global "put")) (.Statements emptyScope)
    (.mk [] voidAnnotation .Inflight) false .Public none WingSpan.default

/-- An example phase-independent method named `toStr`. -/
def exampleIndependentMethod : FunctionDefinition :=
  .mk (some (Symbol.global "toStr")) (.Statements emptyScope)
    (.mk [] voidAnnotation .Independent) false .Public none WingSpan.default

/-- An example preflight initializer. -/
def exampleInitializer : FunctionDefinition :=
  .mk (some (Symbol.global "new")) (.Statements emptyScope)
    (.mk [] voidAnnotation .Preflight) false .Public none WingSpan.default

/-- An example inflight initializer. -/
def exampleInflightInitializer : FunctionDefinition :=
  .mk (some (Symbol.global "inflight_new")) (.Statements emptyScope)
    (.mk [] voidAnnotation .Inflight) false .Public none WingSpan.default

/-- An example class with one inflight and one independent method. -/
def exampleClass : Class :=
  .mk (Symbol.global "Bucket") WingSpan.default []
    [(Symbol.global "put", exampleInflightMethod),
     (Symbol.global "toStr", exampleIndependentMethod)]
    exampleInitializer exampleInflightInitializer none [] .Preflight .Public
    false

/-- An example file system: the directory `/a` holds a `wing.toml`; the
source file is `/a/main.w`. -/
def exampleFS : WingFS where
  is_dir := fun p => p == ([] : List String) || p == ["a"]
  wing_toml_exists := fun p => p == ["a"]
  package_json_exists := fun _ => false
  package_json_has_wing := fun _ => false

/-- Two `Expr::new` calls constructing `nil` literals, used to exercise
the id counter on concrete runs. -/
def twoNilCalls : List (ExprKind × WingSpan) :=
  [(ExprKind.Literal Literal.Nil, WingSpan.default),
   (ExprKind.Literal Literal.Nil, WingSpan.default)]

/-- An example compile run in which the parsing phase reported an error
diagnostic for the single file `main.w` and no other phase reported
anything. -/
def parseErrorWorld : CompileWorld where
  topo_sorted_files := ["main.w"]
  parse_errors := true
  type_check_errors := false
  lift_errors := false
  jsify_errors := false
  jsify_emit_fails := false
  source_is_dir := false
  dtsify_errors := false
  dts_emit_fails := false
  ext_dtsify_fails := false
  imported_namespaces := []

/-- Claim C1: `Phase::can_call_to` applied to caller `p` and callee `q`
returns true iff `q` is Independent or `p = q`; in particular preflight can
call only preflight-or-independent and inflight only
inflight-or-independent. -/
theorem can_call_to_iff (p q : Phase) :
    p.can_call_to q = true ↔ (q = Phase.Independent ∨ p = q) := by
  cases p <;> cases q <;> simp [Phase.can_call_to]

/-- Claim C6: membership in the builtin bringable-module set is exactly
membership in the nine names cloud, util, http, math, aws, expect, fs, sim,
ui. -/
theorem bringable_modules_iff (s : String) :
    s ∈ WINGSDK_BRINGABLE_MODULES ↔
      (s = "cloud" ∨ s = "util" ∨ s = "http" ∨ s = "math" ∨ s = "aws" ∨
       s = "expect" ∨ s = "fs" ∨ s = "sim" ∨ s = "ui") := by
  simp [WINGSDK_BRINGABLE_MODULES, WINGSDK_CLOUD_MODULE, WINGSDK_UTIL_MODULE,
    WINGSDK_HTTP_MODULE, WINGSDK_MATH_MODULE, WINGSDK_AWS_MODULE,
    WINGSDK_EXPECT_MODULE, WINGSDK_FS_MODULE, WINGSDK_SIM_MODULE,
    WINGSDK_UI_MODULE]

/-- Claim C8: symbol equality is by name only; hashing depends only on the
name, so equal symbols hash identically; the total order compares by name
and then by span; `same` compares both name and span, so `same` implies
equality but not conversely. -/
theorem symbol_eq_hash_ord_same :
    (∀ a b : Symbol, Symbol.beq a b = true ↔ a.name = b.name) ∧
    (∀ (h : String → Nat) (a b : Symbol),
        a.name = b.name → Symbol.hashVal h a = Symbol.hashVal h b) ∧
    (∀ a b : Symbol, a.name = b.name →
        Symbol.cmp a b = WingSpan.cmp a.span b.span) ∧
    (∀ a b : Symbol, a.name ≠ b.name →
        Symbol.cmp a b = compare a.name b.name) ∧
    (∀ a b : Symbol, Symbol.same a b = true ↔ (a.name = b.name ∧ a.span = b.span)) ∧
    (∀ a b : Symbol, Symbol.same a b = true → Symbol.beq a b = true) ∧
    (∃ a b : Symbol, Symbol.beq a b = true ∧ Symbol.same a b = false) := by
  refine ⟨?_, ?_, ?_, ?_, ?_, ?_, ?_⟩
  · intro a b; simp [Symbol.beq]
  · intro h a b hab; simp [Symbol.hashVal, hab]
  · intro a b hab
    have hc : compare a.name b.name = Ordering.eq := compare_eq_iff_eq.mpr hab
    simp [Symbol.cmp, hc, Ordering.then]
  · intro a b hab
    have : compare a.name b.name ≠ Ordering.eq := by
      simpa [compare_eq_iff_eq] using hab
    cases hcb : compare a.name b.name <;>
      simp_all [Symbol.cmp, Ordering.then]
  · intro a b; simp [Symbol.same]
  · intro a b hs
    simp only [Symbol.same, Bool.and_eq_true] at hs
    simpa [Symbol.beq] using hs.1
  · refine ⟨Symbol.global "x",
      { name := "x", span := { WingSpan.default with start_line := 1 } }, ?_, ?_⟩
    · simp [Symbol.beq, Symbol.global]
    · simp [Symbol.same, Symbol.global, WingSpan.default]

/-- Witness for C8 at concrete symbols: two symbols with the same name but
different spans are `beq`-equal, hash identically, and are not `same`. -/
theorem symbol_eq_hash_ord_same_witness :
    Symbol.hashVal String.length (Symbol.global "foo")
        = Symbol.hashVal String.length
            { name := "foo", span := { WingSpan.default with start_line := 7 } } ∧
    Symbol.cmp (Symbol.global "foo")
        { name := "foo", span := { WingSpan.default with start_line := 7 } }
      = WingSpan.cmp WingSpan.default { WingSpan.default with start_line := 7 } := by
  constructor
  · exact symbol_eq_hash_ord_same.2.1 String.length _ _ rfl
  · exact symbol_eq_hash_ord_same.2.2.1
      (Symbol.global "foo")
      { name := "foo", span := { WingSpan.default with start_line := 7 } } rfl

/-- Claim C9: the `Clone` impl for `Reference` succeeds with a structurally
equal copy on the `Identifier` and `TypeMember` variants and panics
(modelled as `none`) on the `InstanceMember` and `ElementAccess` variants. -/
theorem reference_clone_partial :
    (∀ s : Symbol,
        (Reference.Identifier s).clone = some (Reference.Identifier s)) ∧
    (∀ (t : UserDefinedType) (p : Symbol),
        (Reference.TypeMember t p).clone = some (Reference.TypeMember t p)) ∧
    (∀ (o : Expr) (p : Symbol) (b : Bool),
        (Reference.InstanceMember o p b).clone = none) ∧
    (∀ (o i : Expr), (Reference.ElementAccess o i).clone = none) :=
  ⟨fun _ => rfl, fun _ _ => rfl, fun _ _ _ => rfl, fun _ _ => rfl⟩

/-- Unfolding lemma: one `Expr::new` call prepended to the rest of the
run, with the wrapped counter passed on. -/
theorem exprNewSeq_cons (k : ExprKind) (s : WingSpan)
    (rest : List (ExprKind × WingSpan)) (c : Nat) :
    exprNewSeq ((k, s) :: rest) c
      = (Expr.mk c k s :: (exprNewSeq rest ((c + 1) % USIZE_MOD)).1,
         (exprNewSeq rest ((c + 1) % USIZE_MOD)).2) := rfl

/-- The ids produced by a run of `Expr::new` calls that does not wrap the
32-bit counter are exactly the consecutive naturals starting at the
initial counter value. -/
theorem exprNewSeq_map_id (ks : List (ExprKind × WingSpan)) (c : Nat)
    (h : c + ks.length ≤ USIZE_MOD) :
    (exprNewSeq ks c).1.map Expr.id = List.range' c ks.length := by
  induction ks generalizing c with
  | nil => simp [exprNewSeq]
  | cons p rest ih =>
    obtain ⟨k, s⟩ := p
    rcases rest with _ | ⟨q, rest2⟩
    · simp [exprNewSeq, Expr.new, Expr.id, List.range'_succ]
    · have hlt : c + 1 < USIZE_MOD := by
        simp only [List.length_cons] at h
        omega
      have hih := ih (c + 1) (by
        simp only [List.length_cons] at h ⊢
        omega)
      rw [exprNewSeq_cons, Nat.mod_eq_of_lt hlt, List.map_cons, hih]
      simp [List.length_cons, List.range'_succ, Expr.id]

/-- The counter after a non-wrapping run of `Expr::new` calls: incremented
exactly once per construction (and reduced modulo the word size). -/
theorem exprNewSeq_counter (ks : List (ExprKind × WingSpan)) (c : Nat)
    (hc : c < USIZE_MOD) (h : c + ks.length ≤ USIZE_MOD) :
    (exprNewSeq ks c).2 = (c + ks.length) % USIZE_MOD := by
  induction ks generalizing c with
  | nil => simp [exprNewSeq, Nat.mod_eq_of_lt hc]
  | cons p rest ih =>
    obtain ⟨k, s⟩ := p
    rcases rest with _ | ⟨q, rest2⟩
    · simp [exprNewSeq, Expr.new]
    · have hlt : c + 1 < USIZE_MOD := by
        simp only [List.length_cons] at h
        omega
      have hih := ih (c + 1) hlt (by
        simp only [List.length_cons] at h ⊢
        omega)
      rw [exprNewSeq_cons, Nat.mod_eq_of_lt hlt, hih]
      congr 1
      simp only [List.length_cons]
      omega

/-- Counterexample to claim C7 as stated: `EXPR_COUNTER` is a wrapping
`AtomicUsize` (32 bits on the wasm32 target), so at the wrap point the id
fetched by a later `Expr::new` call is not strictly greater than the id
fetched by an earlier one: starting from counter value `2^32 - 1`, two
calls yield the ids `2^32 - 1` and then `0`. -/
theorem expr_new_wraps_at_usize_max :
    ((exprNewSeq twoNilCalls (USIZE_MOD - 1)).1.map Expr.id
        = [USIZE_MOD - 1, 0]) ∧
    ¬ ((exprNewSeq twoNilCalls (USIZE_MOD - 1)).1.Pairwise
        (fun a b => a.id < b.id)) := by
  refine ⟨rfl, ?_⟩
  intro hp
  have hm : ((exprNewSeq twoNilCalls (USIZE_MOD - 1)).1.map Expr.id).Pairwise
      (· < ·) := List.pairwise_map.mpr hp
  rw [show (exprNewSeq twoNilCalls (USIZE_MOD - 1)).1.map Expr.id
        = [USIZE_MOD - 1, 0] from rfl] at hm
  have hlt := (List.pairwise_cons.mp hm).1 0 (by simp)
  norm_num [USIZE_MOD] at hlt

/-- Claim C7 (amended): provided the 32-bit counter does not wrap during
the run (the initial counter value is a machine word and initial value
plus number of constructions is at most `2^32`), a sequence of
`Expr::new` calls assigns the consecutive naturals from the initial
counter as ids — the counter is fetch-and-incremented exactly once per
construction, every later call gets a strictly greater id than every
earlier one, and no id is reused. -/
theorem expr_new_ids_unique_increasing_no_wrap
    (ks : List (ExprKind × WingSpan)) (c : Nat)
    (hc : c < USIZE_MOD) (h : c + ks.length ≤ USIZE_MOD) :
    ((exprNewSeq ks c).1.map Expr.id = List.range' c ks.length) ∧
    ((exprNewSeq ks c).2 = (c + ks.length) % USIZE_MOD) ∧
    ((exprNewSeq ks c).1.Pairwise (fun a b => a.id < b.id)) ∧
    ((exprNewSeq ks c).1.map Expr.id).Nodup := by
  refine ⟨exprNewSeq_map_id ks c h, exprNewSeq_counter ks c hc h, ?_, ?_⟩
  · have hp : ((exprNewSeq ks c).1.map Expr.id).Pairwise (· < ·) := by
      rw [exprNewSeq_map_id ks c h]
      exact List.pairwise_lt_range' c ks.length
    exact List.pairwise_map.mp hp
  · rw [exprNewSeq_map_id ks c h]
    exact List.nodup_range' c ks.length

/-- Witness for the amended C7 at a concrete non-wrapping run: two calls
starting from counter `0` assign the ids `0` and `1`, strictly increasing
and without reuse. -/
theorem expr_new_ids_unique_increasing_no_wrap_witness :
    ((exprNewSeq twoNilCalls 0).1.map Expr.id = List.range' 0 2) ∧
    ((exprNewSeq twoNilCalls 0).1.Pairwise (fun a b => a.id < b.id)) ∧
    ((exprNewSeq twoNilCalls 0).1.map Expr.id).Nodup := by
  have h := expr_new_ids_unique_increasing_no_wrap twoNilCalls 0
    (by decide) (by decide)
  exact ⟨h.1, h.2.2.1, h.2.2.2⟩

/-- Claim C10: `inflight_methods` and `preflight_methods` partition
`all_methods` preserving its order: both are order-preserving sublists, a
method is in `inflight_methods` exactly when its signature phase is
`Inflight` and in `preflight_methods` exactly when it is not (so
`Independent` methods land in `preflight_methods`), and every method
appears in exactly one of the two lists. -/
theorem class_methods_partition (c : Class) (b : Bool) :
    ((c.inflight_methods b).Sublist (c.all_methods b)) ∧
    ((c.preflight_methods b).Sublist (c.all_methods b)) ∧
    ((c.inflight_methods b).length + (c.preflight_methods b).length
        = (c.all_methods b).length) ∧
    (∀ m, m ∈ c.all_methods b →
      ((m ∈ c.inflight_methods b ↔ m.signature.phase = Phase.Inflight) ∧
       (m ∈ c.preflight_methods b ↔ m.signature.phase ≠ Phase.Inflight))) := by
  refine ⟨List.filter_sublist _, List.filter_sublist _, ?_, ?_⟩
  · exact (List.length_eq_length_filter_add
      (l := c.all_methods b) (fun m => m.signature.phase == Phase.Inflight)).symm
  · intro m hm
    constructor
    · simp [Class.inflight_methods, List.mem_filter, hm]
    · simp [Class.preflight_methods, List.mem_filter, hm]

/-- Witness for C10 on a concrete class: the inflight method `put` of the
example class is among all methods, lies in `inflight_methods`, and does
not lie in `preflight_methods`. -/
theorem class_methods_partition_witness :
    exampleInflightMethod ∈ exampleClass.all_methods true ∧
    (exampleInflightMethod ∈ exampleClass.inflight_methods true ↔
        exampleInflightMethod.signature.phase = Phase.Inflight) ∧
    (exampleInflightMethod ∈ exampleClass.preflight_methods true ↔
        exampleInflightMethod.signature.phase ≠ Phase.Inflight) := by
  have hmem : exampleInflightMethod ∈ exampleClass.all_methods true := by
    simp [exampleClass, Class.all_methods, Class.methods, Class.initializer,
      Class.inflight_initializer]
  exact ⟨hmem,
    ((class_methods_partition exampleClass true).2.2.2 _ hmem).1,
    ((class_methods_partition exampleClass true).2.2.2 _ hmem).2⟩

/-- Unfolding lemma: the ascent loop returns the current directory as soon
as it matches. -/
theorem project_dir_loop_of_matches (fs : WingFS) (d : List String)
    (h : dir_matches fs d = true) : project_dir_loop fs d = some d := by
  rw [project_dir_loop]
  simp only [dir_matches] at h
  by_cases h1 : fs.wing_toml_exists d = true
  · simp [h1]
  · by_cases h2 : (fs.package_json_exists d && fs.package_json_has_wing d) = true
    · simp [h1, h2]
    · simp [h1, h2] at h

/-- Unfolding lemma: the ascent loop stops without a match at the
filesystem root. -/
theorem project_dir_loop_root (fs : WingFS)
    (h : dir_matches fs [] = false) : project_dir_loop fs [] = none := by
  rw [project_dir_loop]
  simp only [dir_matches] at h
  by_cases h1 : fs.wing_toml_exists [] = true
  · simp [h1] at h
  · by_cases h2 : (fs.package_json_exists [] && fs.package_json_has_wing []) = true
    · simp [h1, h2] at h
    · simp [h1, h2]

/-- Unfolding lemma: a non-matching non-root directory defers to its
parent. -/
theorem project_dir_loop_step (fs : WingFS) (d : List String)
    (h : dir_matches fs d = false) (hne : d ≠ []) :
    project_dir_loop fs d = project_dir_loop fs d.dropLast := by
  rw [project_dir_loop]
  simp only [dir_matches] at h
  by_cases h1 : fs.wing_toml_exists d = true
  · simp [h1] at h
  · by_cases h2 : (fs.package_json_exists d && fs.package_json_has_wing d) = true
    · simp [h1, h2] at h
    · simp [h1, h2, hne]

/-- Unfolding lemma: the ancestor chain of the root is just the root. -/
theorem ancestors_nil : ancestors ([] : List String) = [[]] := by
  rw [ancestors]
  simp

/-- Unfolding lemma: the ancestor chain of a non-root directory starts
with the directory itself. -/
theorem ancestors_ne (p : List String) (h : p ≠ []) :
    ancestors p = p :: ancestors p.dropLast := by
  rw [ancestors]
  simp [h]

/-- The ascent loop is a first-match search over the ancestor chain. -/
theorem project_dir_loop_eq_find (fs : WingFS) (d : List String) :
    project_dir_loop fs d = (ancestors d).find? (dir_matches fs) := by
  have H : ∀ (n : Nat) (e : List String), e.length ≤ n →
      project_dir_loop fs e = (ancestors e).find? (dir_matches fs) := by
    intro n
    induction n with
    | zero =>
      intro e he
      have hnil : e = [] := List.eq_nil_of_length_eq_zero (Nat.le_zero.mp he)
      subst hnil
      by_cases hm : dir_matches fs [] = true
      · rw [project_dir_loop_of_matches fs [] hm, ancestors_nil,
          List.find?_cons_of_pos _ hm]
      · have hmf : dir_matches fs [] = false := by simpa using hm
        rw [project_dir_loop_root fs hmf, ancestors_nil,
          List.find?_cons_of_neg _ hm, List.find?_nil]
    | succ n ih =>
      intro e he
      by_cases hm : dir_matches fs e = true
      · by_cases hnil : e = []
        · subst hnil
          rw [project_dir_loop_of_matches fs [] hm, ancestors_nil,
            List.find?_cons_of_pos _ hm]
        · rw [project_dir_loop_of_matches fs e hm, ancestors_ne e hnil,
            List.find?_cons_of_pos _ hm]
      · have hmf : dir_matches fs e = false := by simpa using hm
        by_cases hnil : e = []
        · subst hnil
          rw [project_dir_loop_root fs hmf, ancestors_nil,
            List.find?_cons_of_neg _ hm, List.find?_nil]
        · rw [project_dir_loop_step fs e hmf hnil, ancestors_ne e hnil,
            List.find?_cons_of_neg _ hm]
          have hlen : e.dropLast.length ≤ n := by
            have hpos : 0 < e.length := List.length_pos.mpr hnil
            simp only [List.length_dropLast]
            omega
          exact ih e.dropLast hlen
  exact H d.length d le_rfl

/-- A directory the ascent loop returns does match. -/
theorem project_dir_loop_some_matches (fs : WingFS) (d r : List String)
    (h : project_dir_loop fs d = some r) : dir_matches fs r = true := by
  rw [project_dir_loop_eq_find] at h
  exact List.find?_some h

/-- Claim C4: `find_nearest_wing_project_dir` returns the first directory
of the ascent chain — the source path itself when it is a directory, else
its parent, then the parents up to the filesystem root — that contains a
`wing.toml` or a `package.json` whose JSON has a top-level "wing" field
(`wing.toml` checked first in each directory, see `dir_matches`), and the
initial directory when no directory of the chain matches. -/
theorem find_nearest_wing_project_dir_spec (fs : WingFS) (p : List String) :
    find_nearest_wing_project_dir fs p =
      ((ancestors (if fs.is_dir p then p else p.dropLast)).find?
          (dir_matches fs)).getD
        (if fs.is_dir p then p else p.dropLast) := by
  simp only [find_nearest_wing_project_dir]
  rw [project_dir_loop_eq_find]
  cases h : (ancestors (if fs.is_dir p then p else p.dropLast)).find?
      (dir_matches fs) <;> simp [h]

/-- The loop outcome at the directory `find_nearest_wing_project_dir`
returns: either it matches (and the loop returns it immediately) or the
whole ascent from it finds nothing. -/
theorem project_dir_loop_at_result (fs : WingFS) (p : List String) :
    project_dir_loop fs (find_nearest_wing_project_dir fs p)
        = some (find_nearest_wing_project_dir fs p) ∨
    project_dir_loop fs (find_nearest_wing_project_dir fs p) = none := by
  simp only [find_nearest_wing_project_dir]
  cases hl : project_dir_loop fs (if fs.is_dir p then p else p.dropLast) with
  | some d =>
    left
    exact project_dir_loop_of_matches fs d
      (project_dir_loop_some_matches fs _ d hl)
  | none =>
    right
    exact hl

/-- Unfolding lemma: on a directory, discovery starts the ascent at the
path itself. -/
theorem find_nearest_of_is_dir (fs : WingFS) (d : List String)
    (h : fs.is_dir d = true) :
    find_nearest_wing_project_dir fs d
      = match project_dir_loop fs d with
        | some x => x
        | none => d := by
  simp [find_nearest_wing_project_dir, h]

/-- Unfolding lemma: on a non-directory, discovery starts the ascent at
the parent directory. -/
theorem find_nearest_of_file (fs : WingFS) (d : List String)
    (h : fs.is_dir d = false) :
    find_nearest_wing_project_dir fs d
      = match project_dir_loop fs d.dropLast with
        | some x => x
        | none => d.dropLast := by
  simp [find_nearest_wing_project_dir, h]

/-- Claim C5: project-root discovery is idempotent.  The hypothesis states
that the returned path is a directory of the file system, which holds of
every real run (the result is either a matching ancestor directory or the
initial directory). -/
theorem find_nearest_wing_project_dir_idempotent (fs : WingFS)
    (p : List String)
    (h : fs.is_dir (find_nearest_wing_project_dir fs p) = true) :
    find_nearest_wing_project_dir fs (find_nearest_wing_project_dir fs p)
      = find_nearest_wing_project_dir fs p := by
  rw [find_nearest_of_is_dir fs _ h]
  rcases project_dir_loop_at_result fs p with hs | hn
  · rw [hs]
  · rw [hn]

/-- Witness for C5 at a concrete file system: discovery from
`/a/main.w` lands on `/a` (which holds a `wing.toml`), and running
discovery again from `/a` returns `/a`. -/
theorem find_nearest_wing_project_dir_idempotent_witness :
    exampleFS.is_dir
        (find_nearest_wing_project_dir exampleFS ["a", "main.w"]) = true ∧
    find_nearest_wing_project_dir exampleFS
        (find_nearest_wing_project_dir exampleFS ["a", "main.w"])
      = find_nearest_wing_project_dir exampleFS ["a", "main.w"] := by
  have hmain : find_nearest_wing_project_dir exampleFS ["a", "main.w"] = ["a"] := by
    rw [find_nearest_of_file exampleFS _ (by rfl)]
    rw [show (["a", "main.w"] : List String).dropLast = ["a"] from rfl]
    rw [project_dir_loop_of_matches exampleFS ["a"] (by rfl)]
  refine ⟨?_, find_nearest_wing_project_dir_idempotent exampleFS
    ["a", "main.w"] ?_⟩
  · rw [hmain]; rfl
  · rw [hmain]; rfl

/-- Claim C2: whenever an error diagnostic has been reported by the time a
code-producing phase is reached, that phase emits nothing and the compile
returns `Err(())`: errors present when the jsification-emission point is
reached suppress both emissions and force the error result, and errors
present when the dtsification-emission point is reached suppress that
emission and force the error result. -/
theorem compile_errors_gate_emission (w : CompileWorld) :
    ((w.parse_errors || w.type_check_errors || w.lift_errors ||
        w.jsify_errors) = true →
      (compile w).js_emitted = false ∧ (compile w).dts_emitted = false ∧
      (compile w).result = Except.error ()) ∧
    ((w.parse_errors || w.type_check_errors || w.lift_errors ||
        w.jsify_errors || w.jsify_emit_fails ||
        (w.source_is_dir && w.dtsify_errors)) = true →
      (compile w).dts_emitted = false ∧
      (compile w).result = Except.error ()) := by
  obtain ⟨files, pe, tce, le, je, jef, dir, de, demf, edf, ns⟩ := w
  constructor
  · intro h
    cases pe <;> cases tce <;> cases le <;> cases je <;> simp_all [compile]
  · intro h
    cases pe <;> cases tce <;> cases le <;> cases je <;> cases jef <;>
      cases dir <;> cases de <;> simp_all [compile]

/-- Witness for C2: in the concrete run whose parsing phase reported an
error, nothing is emitted and the result is `Err(())`. -/
theorem compile_errors_gate_emission_witness :
    (compile parseErrorWorld).js_emitted = false ∧
    (compile parseErrorWorld).dts_emitted = false ∧
    (compile parseErrorWorld).result = Except.error () :=
  (compile_errors_gate_emission parseErrorWorld).1 rfl

/-- Counterexample to claim C3 as stated: in a concrete compile run whose
parsing phase reported an error diagnostic for its single file `main.w`,
the driver still runs the type-checking phase on that file — `compile` has
no error gate between parsing and the type-checking loop (the first gate
sits after the lifting phase). -/
theorem compile_type_checks_despite_parse_error :
    parseErrorWorld.parse_errors = true ∧
    (compile parseErrorWorld).type_checked_files = ["main.w"] ∧
    (compile parseErrorWorld).type_checked_files ≠ [] := by
  refine ⟨rfl, rfl, ?_⟩
  rw [show (compile parseErrorWorld).type_checked_files = ["main.w"] from rfl]
  simp

/-- Claim C3 (amended): when a file fails to parse, `compile` still runs
the type-checking phase for every parsed file; parse errors instead
guarantee that no output file is emitted and that `compile` returns
`Err(())` — the error gate sits after the lifting phase, not after
parsing. -/
theorem compile_parse_errors_gate_output (w : CompileWorld)
    (h : w.parse_errors = true) :
    (compile w).type_checked_files = w.topo_sorted_files ∧
    (compile w).js_emitted = false ∧ (compile w).dts_emitted = false ∧
    (compile w).result = Except.error () := by
  obtain ⟨files, pe, tce, le, je, jef, dir, de, demf, edf, ns⟩ := w
  subst h
  simp [compile]

/-- Witness for the amended C3 at the concrete parse-error run. -/
theorem compile_parse_errors_gate_output_witness :
    (compile parseErrorWorld).type_checked_files = ["main.w"] ∧
    (compile parseErrorWorld).js_emitted = false ∧
    (compile parseErrorWorld).dts_emitted = false ∧
    (compile parseErrorWorld).result = Except.error () := by
  have h := compile_parse_errors_gate_output parseErrorWorld rfl
  exact ⟨h.1.trans rfl, h.2.1, h.2.2.1, h.2.2.2⟩

end Wing
